import Mathlib

/-!
Verification of the file-upload/delete/list core of the Anime_Native backend
(`animeapi/views/oss_views.py`, `animeapi/models.py`, `animeapi/utils/models.py`,
`animeapi/utils/api_response.py`, `animeapi/services/oss_cloudflare.py`).

The Python code is shallowly embedded: pure helpers become Lean functions,
the Django/boto3 collaborators (object store, database) are modelled as
oracles whose outcomes parameterize the view functions, and each view
additionally returns the ordered trace of store/ledger calls it attempted,
so that frame properties ("no store/ledger call is made") are expressible.
-/

namespace AnimeNative

/-- A Django `UploadedFile` as seen by the views: declared name, byte size and
MIME content type (`file_obj.name`, `file_obj.size`, `file_obj.content_type`). -/
structure FileObj where
  name : String
  size : Nat
  content_type : String
deriving Repr, DecidableEq

/-- `settings.FILE_UPLOAD_CONFIG`: max single-file size in bytes, category →
MIME allow-list, category → extension allow-list, max batch count. -/
structure UploadConfig where
  MAX_FILE_SIZE : Nat
  ALLOWED_TYPES : List (String × List String)
  ALLOWED_EXTENSIONS : List (String × List String)
  MAX_BATCH_COUNT : Nat
deriving Repr

/-! ### Number formatting

`validate_file` renders sizes with a Python f-string:
`f'文件 {name} 大小 {file_size_mb:.2f}MB 超过限制 {max_size_mb}MB'`.
Both `file_size_mb = size / 2^20` and `max_size_mb = MAX_FILE_SIZE / 2^20`
are dyadic rationals exactly representable as IEEE doubles (numerators below
`2^53`), so CPython's correctly-rounded formatting acts on the exact rational
value and can be modelled exactly, here as numerator/denominator pairs of
naturals. -/

/-- Round the nonnegative rational `num/den` (`den ≠ 0`) to the nearest
integer, ties to even — the rounding CPython's `format(x, '.2f')` applies to
the exact value of the double `x`. -/
def rndHalfEven (num den : Nat) : Nat :=
  let q := num / den
  let r := num % den
  if 2 * r < den then q
  else if den < 2 * r then q + 1
  else if q % 2 = 0 then q else q + 1

/-- Two-digit zero-padded rendering of a natural number below 100. -/
def pad2 (n : Nat) : String :=
  if n < 10 then "0" ++ toString n else toString n

/-- Python `f"{x:.2f}"` for a nonnegative double holding the exact rational
value `num/den`: fixed-point with exactly two fractional digits, correctly
rounded (half to even). -/
def formatFix2 (num den : Nat) : String :=
  let c := rndHalfEven (num * 100) den
  toString (c / 100) ++ "." ++ pad2 (c % 100)

/-- Decimal digits of the fractional value `num/den` (`num < den`), emitted
until the remainder vanishes or fuel runs out; the expansion of the dyadic
rationals arising here terminates well inside the fuel. -/
def decDigits (num den : Nat) : Nat → String
  | 0 => ""
  | fuel + 1 =>
    if num = 0 then ""
    else toString (num * 10 / den) ++ decDigits (num * 10 % den) den fuel

/-- Python's default float formatting `f"{x}"` (= `repr`) for a nonnegative
double holding the exact dyadic rational `num/den`: an integral value prints
with a trailing `.0`, otherwise the shortest round-tripping decimal, which
for the short dyadic expansions arising here is the exact terminating
expansion. -/
def pyFloatStr (num den : Nat) : String :=
  if num % den = 0 then toString (num / den) ++ ".0"
  else toString (num / den) ++ "." ++ decDigits (num % den) den 60

/-! ### `os.path.splitext` (posixpath) -/

/-- Index just past the last occurrence of `c` in `l` (0 when `c` is absent):
`p.rfind(c) + 1` in Python terms. -/
def rfindSucc (c : Char) : List Char → Nat
  | [] => 0
  | x :: xs =>
    let r := rfindSucc c xs
    if r = 0 then (if x = c then 1 else 0) else r + 1

/-- `os.path.splitext(name)[1]` for posix paths: the suffix starting at the
last `'.'`, provided some non-`'.'` character of the basename precedes it;
otherwise the empty string (names like `"file"`, `".bashrc"`, `"..."` have no
extension). -/
def splitextExt (name : String) : String :=
  let l := name.data
  let sepIndex := rfindSucc '/' l   -- start of the basename
  let dotSucc := rfindSucc '.' l    -- one past the last dot, 0 if none
  if dotSucc ≤ sepIndex then ""
  else
    let dotIndex := dotSucc - 1
    let base := (l.drop sepIndex).take (dotIndex - sepIndex)
    if base.any (fun ch => ch ≠ '.') then String.mk (l.drop dotIndex)
    else ""

/-- Python `str.lower()` restricted to the ASCII range that file extensions
use. -/
def pyLower (s : String) : String := String.mk (s.data.map Char.toLower)

/-- `validate_file(file_obj)` from `oss_views.py`: returns
`(is_valid, error_message)`.  Checks, in order: size against
`MAX_FILE_SIZE` (message shows the actual size via `:.2f` and the limit via
default float formatting), MIME type against the flattened `ALLOWED_TYPES`
values, and — only when the lower-cased extension is non-empty — the
extension against the flattened `ALLOWED_EXTENSIONS` values. -/
def validate_file (cfg : UploadConfig) (f : FileObj) : Bool × Option String :=
  if cfg.MAX_FILE_SIZE < f.size then
    (false, some ("文件 " ++ f.name ++ " 大小 " ++ formatFix2 f.size (1024 * 1024) ++
      "MB 超过限制 " ++ pyFloatStr cfg.MAX_FILE_SIZE (1024 * 1024) ++ "MB"))
  else
    let allowed_types := (cfg.ALLOWED_TYPES.map Prod.snd).flatten
    if ¬ allowed_types.contains f.content_type then
      (false, some ("文件 " ++ f.name ++ " 类型 " ++ f.content_type ++ " 不被允许"))
    else
      let file_ext := pyLower (splitextExt f.name)
      let allowed_extensions := (cfg.ALLOWED_EXTENSIONS.map Prod.snd).flatten
      if file_ext ≠ "" ∧ ¬ allowed_extensions.contains file_ext then
        (false, some ("文件 " ++ f.name ++ " 扩展名 " ++ file_ext ++ " 不被允许"))
      else
        (true, none)

/-! ### Response envelope (`utils/api_response.py`) -/

/-- The uniform envelope `{code, message, data}` returned with an HTTP
status; `data` is typed per endpoint. -/
structure ApiResp (α : Type) where
  code : Nat
  message : String
  data : Option α
  status : Nat
deriving Repr, DecidableEq

/-- `APIResponse.success(data, message)`: envelope code 200, HTTP 200. -/
def APIResponse.success {α : Type} (data : Option α) (message : String) : ApiResp α :=
  ⟨200, message, data, 200⟩

/-- `APIResponse.error(message, code, status_code)`: `data` is `None`. -/
def APIResponse.error {α : Type} (message : String) (code : Nat) (status_code : Nat) :
    ApiResp α :=
  ⟨code, message, none, status_code⟩

/-! ### Collaborator calls -/

/-- A call the views attempt against a collaborator: an R2
`upload_fileobj`/`delete_object`, or a ledger `create`/soft-delete `save`. -/
inductive Effect where
  | storePut
  | storeDelete
  | ledgerInsert
  | ledgerSoftDelete
deriving Repr, DecidableEq

/-- The dict returned by `CloudflareR2Service.upload_file`. -/
structure UploadResult where
  url : String
  file_path : String
  file_name : String
  original_name : String
  file_size : Nat
  content_type : String
deriving Repr, DecidableEq

/-- A successful upload's response payload: the `upload_file` dict plus the
`record_id` of the created ledger row. -/
structure UploadData where
  upload : UploadResult
  record_id : Nat
deriving Repr, DecidableEq

/-- An entry of the batch `failed_files` list: `{file_name, error}`. -/
structure FailEntry where
  file_name : String
  error : String
deriving Repr, DecidableEq

/-- Outcome of one `r2_service.upload_file` call: the result dict, or the
message of the exception it raised. -/
abbrev StoreOutcome := Except String UploadResult

/-- Outcome of one `UserFileRecord.objects.create` call: the new row's pk, or
the message of the exception it raised (e.g. the `file_path` uniqueness
violation). -/
abbrev InsertOutcome := Except String Nat

/-! ### `FileUploadView.post` -/

/-- A single-upload request: `request.FILES.getlist('file')` plus the form
fields, with `""` standing for an absent required field. -/
structure UploadReq where
  fileList : List FileObj
  project_name : String
  file_type : String
  custom_name : Option String
  description : String
deriving Repr

/-- `FileUploadView.post`, parameterized by the outcomes of the (at most one)
store call and ledger insert it makes.  Returns the response and the ordered
trace of collaborator calls attempted.  Mirrors `oss_views.py`: missing-file
check, multi-file check, missing `project_name`/`file_type` checks,
`validate_file`, R2 upload, ledger insert; any exception from the last two is
caught and surfaced as `'上传失败: ...'` with code 500. -/
def fileUpload_post (cfg : UploadConfig) (req : UploadReq)
    (store : StoreOutcome) (insert : InsertOutcome) :
    ApiResp UploadData × List Effect :=
  match req.fileList.getLast? with
  | none => (APIResponse.error "缺少文件参数" 400 400, [])
  | some file_obj =>
    if 1 < req.fileList.length then
      (APIResponse.error "单文件上传接口只能上传一个文件，请使用批量上传接口 /upload/batch/" 400 400, [])
    else if req.project_name = "" then
      (APIResponse.error "缺少项目名称" 400 400, [])
    else if req.file_type = "" then
      (APIResponse.error "缺少文件类型" 400 400, [])
    else
      match validate_file cfg file_obj with
      | (false, error_msg) =>
        (APIResponse.error (error_msg.getD "文件验证失败") 400 400, [])
      | (true, _) =>
        match store with
        | .error e =>
          (APIResponse.error ("上传失败: " ++ e) 500 500, [.storePut])
        | .ok upload_result =>
          match insert with
          | .error e =>
            (APIResponse.error ("上传失败: " ++ e) 500 500, [.storePut, .ledgerInsert])
          | .ok pk =>
            (APIResponse.success (some ⟨upload_result, pk⟩) "上传成功",
             [.storePut, .ledgerInsert])

/-! ### `FileBatchUploadView.post` -/

/-- A batch-upload request: `request.FILES.getlist('files')` plus the shared
form fields (`""` standing for an absent required field). -/
structure BatchReq where
  files : List FileObj
  project_name : String
  file_type : String
  description : String
deriving Repr

/-- The batch response payload built at the end of
`FileBatchUploadView.post`. -/
structure BatchData where
  total : Nat
  success_count : Nat
  failed_count : Nat
  success_files : List UploadData
  failed_files : List FailEntry
deriving Repr, DecidableEq

/-- One iteration of the batch loop for `file_obj`: validation failure or a
raised store/ledger exception lands in the failure list as
`{file_name, error}`; otherwise the upload dict plus `record_id` lands in the
success list.  Also returns the collaborator calls attempted for this file. -/
def processOne (cfg : UploadConfig) (file_obj : FileObj)
    (store : StoreOutcome) (insert : InsertOutcome) :
    (UploadData ⊕ FailEntry) × List Effect :=
  match validate_file cfg file_obj with
  | (false, error_msg) =>
    (Sum.inr ⟨file_obj.name, error_msg.getD "文件验证失败"⟩, [])
  | (true, _) =>
    match store with
    | .error e => (Sum.inr ⟨file_obj.name, e⟩, [.storePut])
    | .ok upload_result =>
      match insert with
      | .error e => (Sum.inr ⟨file_obj.name, e⟩, [.storePut, .ledgerInsert])
      | .ok pk => (Sum.inl ⟨upload_result, pk⟩, [.storePut, .ledgerInsert])

/-- The `for file_obj in files` loop: files are processed independently and in
order, the `i`-th file's store/ledger outcomes given by `store i` / `insert i`.
Returns `(success_list, failed_list, trace)`. -/
def batchLoop (cfg : UploadConfig) (store : Nat → StoreOutcome)
    (insert : Nat → InsertOutcome) :
    List FileObj → Nat → List UploadData × List FailEntry × List Effect
  | [], _ => ([], [], [])
  | file_obj :: rest, i =>
    let (res, eff) := processOne cfg file_obj (store i) (insert i)
    let (s, fl, effs) := batchLoop cfg store insert rest (i + 1)
    match res with
    | Sum.inl ok => (ok :: s, fl, eff ++ effs)
    | Sum.inr bad => (s, bad :: fl, eff ++ effs)

/-- `FileBatchUploadView.post`.  Pre-checks in source order: missing `files`,
missing `project_name`, missing `file_type`, then the `MAX_BATCH_COUNT`
bound — each rejected with a 400 error before any store/ledger call.  The
surviving batch runs `batchLoop` and always returns a success envelope whose
payload carries the totals and both lists. -/
def fileBatchUpload_post (cfg : UploadConfig) (req : BatchReq)
    (store : Nat → StoreOutcome) (insert : Nat → InsertOutcome) :
    ApiResp BatchData × List Effect :=
  if req.files.isEmpty then
    (APIResponse.error "缺少文件参数，请确保字段名为 files（复数）" 400 400, [])
  else if req.project_name = "" then
    (APIResponse.error "缺少项目名称" 400 400, [])
  else if req.file_type = "" then
    (APIResponse.error "缺少文件类型" 400 400, [])
  else if cfg.MAX_BATCH_COUNT < req.files.length then
    (APIResponse.error
      ("批量上传文件数量超过限制，最多允许 " ++ toString cfg.MAX_BATCH_COUNT ++
       " 个文件，当前 " ++ toString req.files.length ++ " 个") 400 400, [])
  else
    let (success_list, failed_list, trace) := batchLoop cfg store insert req.files 0
    let result : BatchData :=
      ⟨req.files.length, success_list.length, failed_list.length,
       success_list, failed_list⟩
    let message :=
      if ¬ failed_list.isEmpty then
        "部分上传成功：" ++ toString success_list.length ++ "/" ++ toString req.files.length
      else
        "全部上传成功：" ++ toString success_list.length ++ " 个文件"
    (APIResponse.success (some result) message, trace)

/-! ### The ledger (`UserFileRecord` with `SoftDeleteModel`/`SoftDeleteManager`) -/

/-- A `user_file_record` row, with the fields the verified views read or
write.  `is_deleted`/`deleted_at` come from `SoftDeleteModel`; timestamps are
abstract `Nat` instants. -/
structure Record where
  id : Nat
  userId : Nat
  file_path : String
  project_name : String
  file_type : String
  uploaded_at : Nat
  is_deleted : Bool
  deleted_at : Option Nat
deriving Repr, DecidableEq

/-- The ledger: the full `user_file_record` table, deleted rows included. -/
abbrev Ledger := List Record

/-- `UserFileRecord.objects.create(...)` under the database's
`unique=True` constraint on `file_path` (`models.py`): the insert fails
against every existing row, soft-deleted rows included, since the constraint
is declared on the column, not on the manager's filtered queryset. -/
def ledgerCreate (ledger : Ledger) (r : Record) : Except String Ledger :=
  if ledger.any (fun x => x.file_path == r.file_path) then
    Except.error "UNIQUE constraint failed: user_file_record.file_path"
  else
    Except.ok (ledger ++ [r])

/-- `UserFileRecord.objects.filter(...)`: `objects` is the
`SoftDeleteManager`, whose `get_queryset` filters `is_deleted=False` before
any caller-supplied condition. -/
def objectsFilter (ledger : Ledger) (p : Record → Bool) : List Record :=
  (ledger.filter (fun r => !r.is_deleted)).filter p

/-! ### `FileDeleteView.delete` -/

/-- `SoftDeleteModel.delete` applied to the row `rid`: mark `is_deleted` and
stamp `deleted_at` with the current time, leaving every other row alone. -/
def softDeleteRow (ledger : Ledger) (rid : Nat) (now : Nat) : Ledger :=
  ledger.map (fun r =>
    if r.id == rid then { r with is_deleted := true, deleted_at := some now } else r)

/-- `FileDeleteView.delete`, parameterized by the outcome of the (at most
one) `r2_service.delete_file` call.  Mirrors `oss_views.py`: missing-id
check; owner-scoped lookup through the soft-delete manager
(`objects.filter(id=..., user=...).first()`), one shared 404 for every miss;
store deletion; then the soft-delete.  A raised store exception is caught and
surfaced as `'删除失败: ...'` with code 500, before `record.delete()` runs.
Returns the response, the resulting ledger and the calls attempted. -/
def fileDelete_delete (ledger : Ledger) (userId : Nat) (record_id : Option Nat)
    (storeDelete : Except String Unit) (now : Nat) :
    ApiResp Unit × Ledger × List Effect :=
  match record_id with
  | none => (APIResponse.error "缺少文件记录ID" 400 400, ledger, [])
  | some rid =>
    match (objectsFilter ledger (fun r => r.id == rid && r.userId == userId)).head? with
    | none =>
      (APIResponse.error "文件不存在或无权限删除" 404 404, ledger, [])
    | some record =>
      match storeDelete with
      | .error e =>
        (APIResponse.error ("删除失败: " ++ e) 500 500, ledger, [.storeDelete])
      | .ok _ =>
        (APIResponse.success none "删除成功",
         softDeleteRow ledger record.id now,
         [.storeDelete, .ledgerSoftDelete])

/-! ### `UserFileListView.get` -/

/-- Insertion into a list kept in descending `uploaded_at` order. -/
def insertByUploadedDesc (r : Record) : List Record → List Record
  | [] => [r]
  | x :: xs =>
    if x.uploaded_at ≤ r.uploaded_at then r :: x :: xs
    else x :: insertByUploadedDesc r xs

/-- `Meta.ordering = ["-uploaded_at"]`: the queryset sorted by upload time,
newest first. -/
def orderByUploadedDesc : List Record → List Record
  | [] => []
  | x :: xs => insertByUploadedDesc x (orderByUploadedDesc xs)

/-- The queryset built by `UserFileListView.get`: the soft-delete manager's
base filter, the owner scope, the optional conjunctive `project_name` /
`file_type` filters, in the model's default ordering. -/
def userFileList_queryset (ledger : Ledger) (userId : Nat)
    (project_name file_type : Option String) : List Record :=
  let queryset := objectsFilter ledger (fun r => r.userId == userId)
  let queryset :=
    match project_name with
    | some p => queryset.filter (fun r => r.project_name == p)
    | none => queryset
  let queryset :=
    match file_type with
    | some t => queryset.filter (fun r => r.file_type == t)
    | none => queryset
  orderByUploadedDesc queryset

/-- The records serialized onto one page by `UserFileListView.get`
(`Paginator(queryset, page_size).get_page(page)`, 1-indexed). -/
def userFileList_page (ledger : Ledger) (userId : Nat)
    (project_name file_type : Option String) (page page_size : Nat) : List Record :=
  ((userFileList_queryset ledger userId project_name file_type).drop
    ((page - 1) * page_size)).take page_size

/-! ### Concrete fixtures (the spec's §8 scenario configuration) -/

/-- 5 MiB limit, image MIME/extension allow-lists, batches of at most 10. -/
def cfgW : UploadConfig :=
  ⟨5242880, [("images", ["image/jpeg", "image/png"])],
   [("images", [".jpg", ".jpeg", ".png"])], 10⟩

/-- A valid 2 MiB JPEG. -/
def fileOk : FileObj := ⟨"cat.jpg", 2097152, "image/jpeg"⟩

/-- A 10 MiB PNG, oversized for `cfgW`. -/
def fileBig : FileObj := ⟨"big.png", 10485760, "image/png"⟩

/-- A valid PNG upload whose name carries no extension. -/
def fileNoExt : FileObj := ⟨"noext", 100, "image/png"⟩

/-- The dict a successful `upload_file` call returns for `fileOk`. -/
def urW : UploadResult :=
  ⟨"https://cdn.example.com/user_avatar/images/20260101_120000_ab12cd34_cat.jpg",
   "user_avatar/images/20260101_120000_ab12cd34_cat.jpg",
   "20260101_120000_ab12cd34_cat.jpg", "cat.jpg", 2097152, "image/jpeg"⟩

/-- A well-formed single-upload request for `fileOk`. -/
def reqSingleW : UploadReq := ⟨[fileOk], "user_avatar", "images", none, ""⟩

/-- A live row owned by user 10. -/
def recAlice : Record :=
  ⟨1, 10, "user_avatar/images/a.jpg", "user_avatar", "images", 100, false, none⟩

/-- A soft-deleted row owned by user 11. -/
def recBobDeleted : Record :=
  ⟨2, 11, "ai_memo/documents/b.pdf", "ai_memo", "documents", 200, true, some 250⟩

/-- A two-row ledger, one row live and one soft-deleted. -/
def ledgerW : Ledger := [recAlice, recBobDeleted]

/-! ### Helper lemmas -/

/-- Each file of a batch lands in exactly one of the two result lists, so
their lengths always sum to the number of files processed. -/
theorem batchLoop_length (cfg : UploadConfig) (store : Nat → StoreOutcome)
    (insert : Nat → InsertOutcome) :
    ∀ (files : List FileObj) (i : Nat),
      (batchLoop cfg store insert files i).1.length +
        (batchLoop cfg store insert files i).2.1.length = files.length := by
  intro files
  induction files with
  | nil => intro i; rfl
  | cons f rest ih =>
    intro i
    unfold batchLoop
    rcases hp : processOne cfg f (store i) (insert i) with ⟨res | res, eff⟩ <;>
      rcases hb : batchLoop cfg store insert rest (i + 1) with ⟨s, fl, tr⟩ <;>
      · have := ih (i + 1)
        rw [hb] at this
        simp_all
        omega

/-- Membership is preserved by the ordered insertion. -/
theorem mem_insertByUploadedDesc {x r : Record} {l : List Record} :
    x ∈ insertByUploadedDesc r l ↔ x = r ∨ x ∈ l := by
  induction l with
  | nil => simp [insertByUploadedDesc]
  | cons a t ih =>
    unfold insertByUploadedDesc
    split
    · simp [ih]
    · simp [ih]
      tauto

/-- Sorting by upload time does not change membership. -/
theorem mem_orderByUploadedDesc {x : Record} :
    ∀ {l : List Record}, x ∈ orderByUploadedDesc l ↔ x ∈ l := by
  intro l
  induction l with
  | nil => simp [orderByUploadedDesc]
  | cons a t ih =>
    unfold orderByUploadedDesc
    rw [mem_insertByUploadedDesc, ih]
    simp

/-! ### Claims -/

/-- C1: for every batch upload that passes the pre-checks (files present,
`project_name` and `file_type` present, count within `MAX_BATCH_COUNT`), the
returned payload satisfies `success_count + failed_count = total` with
`total` the number of submitted files, whatever the per-file
validation/store/ledger outcomes are: each file contributes exactly one
entry, to the success list or to the failure list. -/
theorem batch_counts_balance (cfg : UploadConfig) (req : BatchReq)
    (store : Nat → StoreOutcome) (insert : Nat → InsertOutcome)
    (hfiles : req.files.isEmpty = false) (hproj : req.project_name ≠ "")
    (htype : req.file_type ≠ "")
    (hcount : req.files.length ≤ cfg.MAX_BATCH_COUNT) :
    ∃ d : BatchData,
      (fileBatchUpload_post cfg req store insert).1.data = some d ∧
      d.total = req.files.length ∧
      d.success_count + d.failed_count = d.total := by
  unfold fileBatchUpload_post
  rcases hb : batchLoop cfg store insert req.files 0 with ⟨s, fl, tr⟩
  have hlen := batchLoop_length cfg store insert req.files 0
  rw [hb] at hlen
  refine ⟨⟨req.files.length, s.length, fl.length, s, fl⟩, ?_, rfl, ?_⟩
  · simp [hfiles, hproj, htype, Nat.not_lt.mpr hcount, hb, APIResponse.success]
  · simpa using hlen

/-- Witness for C1: a two-file batch (one valid file, one oversized) under
`cfgW` balances its counts. -/
theorem batch_counts_balance_witness :
    ∃ d : BatchData,
      (fileBatchUpload_post cfgW ⟨[fileOk, fileBig], "user_avatar", "images", ""⟩
        (fun _ => .ok urW) (fun _ => .ok 1)).1.data = some d ∧
      d.total = 2 ∧ d.success_count + d.failed_count = d.total :=
  batch_counts_balance cfgW ⟨[fileOk, fileBig], "user_avatar", "images", ""⟩
    (fun _ => .ok urW) (fun _ => .ok 1) (by decide) (by decide) (by decide) (by decide)

/-- C9: for every batch upload that passes the pre-checks, the response is
the success envelope — envelope code 200, HTTP status 200, payload present —
regardless of the per-file outcomes; in particular an all-failed batch gets
no error status, its per-file errors living only inside the payload. -/
theorem batch_always_success_envelope (cfg : UploadConfig) (req : BatchReq)
    (store : Nat → StoreOutcome) (insert : Nat → InsertOutcome)
    (hfiles : req.files.isEmpty = false) (hproj : req.project_name ≠ "")
    (htype : req.file_type ≠ "")
    (hcount : req.files.length ≤ cfg.MAX_BATCH_COUNT) :
    (fileBatchUpload_post cfg req store insert).1.code = 200 ∧
    (fileBatchUpload_post cfg req store insert).1.status = 200 ∧
    (fileBatchUpload_post cfg req store insert).1.data.isSome = true := by
  unfold fileBatchUpload_post
  rcases hb : batchLoop cfg store insert req.files 0 with ⟨s, fl, tr⟩
  simp [hfiles, hproj, htype, Nat.not_lt.mpr hcount, hb, APIResponse.success]

/-- Witness for C9: a batch whose every ledger insert raises — so every file
fails — still comes back as a 200 success envelope with a payload. -/
theorem batch_always_success_envelope_witness :
    (fileBatchUpload_post cfgW ⟨[fileOk, fileBig], "user_avatar", "images", ""⟩
      (fun _ => .ok urW) (fun _ => .error "boom")).1.code = 200 ∧
    (fileBatchUpload_post cfgW ⟨[fileOk, fileBig], "user_avatar", "images", ""⟩
      (fun _ => .ok urW) (fun _ => .error "boom")).1.status = 200 ∧
    (fileBatchUpload_post cfgW ⟨[fileOk, fileBig], "user_avatar", "images", ""⟩
      (fun _ => .ok urW) (fun _ => .error "boom")).1.data.isSome = true :=
  batch_always_success_envelope cfgW ⟨[fileOk, fileBig], "user_avatar", "images", ""⟩
    (fun _ => .ok urW) (fun _ => .error "boom")
    (by decide) (by decide) (by decide) (by decide)

/-- C4: an upload request that fails validation or lacks a required field,
and a batch whose file count exceeds `MAX_BATCH_COUNT`, are rejected with a
400 error before any object-store or ledger call: the attempted-call trace
is empty, so store and ledger state are unchanged. -/
theorem rejected_before_any_call (cfg : UploadConfig) (f : FileObj)
    (req : UploadReq) (breq : BatchReq)
    (store : StoreOutcome) (insert : InsertOutcome)
    (bstore : Nat → StoreOutcome) (binsert : Nat → InsertOutcome) :
    (req.fileList = [] →
      (fileUpload_post cfg req store insert).1.code = 400 ∧
      (fileUpload_post cfg req store insert).2 = []) ∧
    (req.fileList = [f] →
      ((validate_file cfg f).1 = false ∨ req.project_name = "" ∨ req.file_type = "") →
      (fileUpload_post cfg req store insert).1.code = 400 ∧
      (fileUpload_post cfg req store insert).2 = []) ∧
    (cfg.MAX_BATCH_COUNT < breq.files.length →
      (fileBatchUpload_post cfg breq bstore binsert).1.code = 400 ∧
      (fileBatchUpload_post cfg breq bstore binsert).2 = []) := by
  refine ⟨?_, ?_, ?_⟩
  · intro h
    unfold fileUpload_post
    rw [h]
    simp [APIResponse.error]
  · intro h hfail
    unfold fileUpload_post
    rw [h]
    simp only [List.getLast?_singleton, List.length_singleton]
    rcases hv : validate_file cfg f with ⟨valid, msg⟩
    rcases hfail with hfail | hfail | hfail
    · rw [hv] at hfail
      simp only at hfail
      subst hfail
      by_cases h2 : req.project_name = "" <;> by_cases h3 : req.file_type = "" <;>
        simp [h2, h3, hv, APIResponse.error]
    · rcases valid <;> simp [hfail, hv, APIResponse.error]
    · by_cases h2 : req.project_name = "" <;> rcases valid <;>
        simp [hfail, h2, hv, APIResponse.error]
  · intro h
    unfold fileBatchUpload_post
    by_cases h1 : breq.files.isEmpty
    · simp [h1, APIResponse.error]
    · by_cases h2 : breq.project_name = ""
      · simp [h1, h2, APIResponse.error]
      · by_cases h3 : breq.file_type = ""
        · simp [h1, h2, h3, APIResponse.error]
        · simp [h1, h2, h3, h, APIResponse.error]

/-- Witness for C4: the 10 MiB file is rejected with no calls attempted, and
an 11-file batch against the 10-file limit likewise. -/
theorem rejected_before_any_call_witness :
    ((fileUpload_post cfgW ⟨[fileBig], "user_avatar", "images", none, ""⟩
        (.ok urW) (.ok 1)).1.code = 400 ∧
      (fileUpload_post cfgW ⟨[fileBig], "user_avatar", "images", none, ""⟩
        (.ok urW) (.ok 1)).2 = []) ∧
    ((fileBatchUpload_post cfgW
        ⟨List.replicate 11 fileOk, "user_avatar", "images", ""⟩
        (fun _ => .ok urW) (fun _ => .ok 1)).1.code = 400 ∧
      (fileBatchUpload_post cfgW
        ⟨List.replicate 11 fileOk, "user_avatar", "images", ""⟩
        (fun _ => .ok urW) (fun _ => .ok 1)).2 = []) := by
  have h := rejected_before_any_call cfgW fileBig
    ⟨[fileBig], "user_avatar", "images", none, ""⟩
    ⟨List.replicate 11 fileOk, "user_avatar", "images", ""⟩
    (.ok urW) (.ok 1) (fun _ => .ok urW) (fun _ => .ok 1)
  exact ⟨h.2.1 rfl (Or.inl (by decide)), h.2.2 (by decide)⟩

/-- C10: a single-file upload request carrying more than one file under the
`file` field is answered with the 400 error that points at the batch
endpoint, before validation and before any store or ledger call. -/
theorem multi_file_redirected_to_batch (cfg : UploadConfig) (req : UploadReq)
    (store : StoreOutcome) (insert : InsertOutcome)
    (h : 1 < req.fileList.length) :
    fileUpload_post cfg req store insert =
      (APIResponse.error "单文件上传接口只能上传一个文件，请使用批量上传接口 /upload/batch/" 400 400, []) := by
  have hne : req.fileList ≠ [] := by
    intro h0
    rw [h0] at h
    simp at h
  obtain ⟨a, ha⟩ := Option.isSome_iff_exists.mp (List.getLast?_isSome.mpr hne)
  unfold fileUpload_post
  rw [ha]
  simp [h]

/-- Witness for C10: two files under `file` trigger the redirect error. -/
theorem multi_file_redirected_to_batch_witness :
    fileUpload_post cfgW ⟨[fileOk, fileOk], "user_avatar", "images", none, ""⟩
        (.ok urW) (.ok 1) =
      (APIResponse.error "单文件上传接口只能上传一个文件，请使用批量上传接口 /upload/batch/" 400 400, []) :=
  multi_file_redirected_to_batch cfgW
    ⟨[fileOk, fileOk], "user_avatar", "images", none, ""⟩
    (.ok urW) (.ok 1) (by decide)

/-- C6: a delete naming a record id that does not exist, is soft-deleted, or
belongs to another principal gets the one shared 404 response — never a 403
and with no way to tell the cases apart — while the ledger is left unchanged
and no store or ledger call is attempted. -/
theorem delete_miss_uniform_notfound (ledger : Ledger) (userId rid : Nat)
    (storeDelete : Except String Unit) (now : Nat)
    (h : ∀ r ∈ ledger, ¬(r.id = rid ∧ r.userId = userId ∧ r.is_deleted = false)) :
    fileDelete_delete ledger userId (some rid) storeDelete now =
      (APIResponse.error "文件不存在或无权限删除" 404 404, ledger, []) := by
  have hnil : objectsFilter ledger (fun r => r.id == rid && r.userId == userId) = [] := by
    unfold objectsFilter
    rw [List.filter_filter]
    rw [List.filter_eq_nil_iff]
    intro r hr
    intro hcontra
    simp only [Bool.and_eq_true, beq_iff_eq, Bool.not_eq_true'] at hcontra
    exact h r hr ⟨hcontra.1.1, hcontra.1.2, hcontra.2⟩
  simp only [fileDelete_delete]
  rw [hnil]
  rfl

/-- Witness for C6: deleting Alice's live record as user 11 (its owner is
user 10), deleting the already-soft-deleted record 2 as its own owner, and
deleting an absent id would all take this branch; instantiated here at the
not-the-owner case. -/
theorem delete_miss_uniform_notfound_witness :
    fileDelete_delete ledgerW 11 (some 1) (.ok ()) 300 =
      (APIResponse.error "文件不存在或无权限删除" 404 404, ledgerW, []) :=
  delete_miss_uniform_notfound ledgerW 11 1 (.ok ()) 300 (by decide)

/-- C3: on a delete of an owned, live record, the store deletion is attempted
first; when it raises, the 500 storage error is surfaced with the ledger left
exactly as it was (`is_deleted` still false, `deleted_at` still unset) and no
soft-delete attempted; the row is soft-deleted (flag set, timestamp stamped)
only in the run where the store deletion succeeded. -/
theorem delete_store_first (ledger : Ledger) (userId rid now : Nat)
    (record : Record)
    (hfind : (objectsFilter ledger
        (fun r => r.id == rid && r.userId == userId)).head? = some record) :
    (∀ e : String,
      fileDelete_delete ledger userId (some rid) (.error e) now =
        (APIResponse.error ("删除失败: " ++ e) 500 500, ledger, [.storeDelete])) ∧
    fileDelete_delete ledger userId (some rid) (.ok ()) now =
      (APIResponse.success none "删除成功", softDeleteRow ledger record.id now,
       [.storeDelete, .ledgerSoftDelete]) ∧
    (record ∈ ledger →
      { record with is_deleted := true, deleted_at := some now } ∈
        (fileDelete_delete ledger userId (some rid) (.ok ()) now).2.1) := by
  refine ⟨?_, ?_, ?_⟩
  · intro e
    simp only [fileDelete_delete]
    rw [hfind]
  · simp only [fileDelete_delete]
    rw [hfind]
  · intro hmem
    simp only [fileDelete_delete]
    rw [hfind]
    simp only [softDeleteRow]
    have himg := List.mem_map_of_mem
      (fun r => if r.id == record.id then
        { r with is_deleted := true, deleted_at := some now } else r) hmem
    simpa using himg

/-- Witness for C3: deleting Alice's record as its owner — a failing store
delete leaves the ledger untouched, a succeeding one soft-deletes the row. -/
theorem delete_store_first_witness :
    (∀ e : String,
      fileDelete_delete ledgerW 10 (some 1) (.error e) 300 =
        (APIResponse.error ("删除失败: " ++ e) 500 500, ledgerW, [.storeDelete])) ∧
    fileDelete_delete ledgerW 10 (some 1) (.ok ()) 300 =
      (APIResponse.success none "删除成功", softDeleteRow ledgerW recAlice.id 300,
       [.storeDelete, .ledgerSoftDelete]) ∧
    ({ recAlice with is_deleted := true, deleted_at := some 300 } ∈
      (fileDelete_delete ledgerW 10 (some 1) (.ok ()) 300).2.1) := by
  have h := delete_store_first ledgerW 10 1 300 recAlice (by decide)
  exact ⟨h.1, h.2.1, h.2.2 (by decide)⟩

/-- C7: a soft-deleted record never appears on any page of the default list
results (the soft-delete manager filters it out), yet the `file_path`
uniqueness constraint still covers it: a `create` with that exact path fails
for every candidate row, so `file_path` stays unique across deleted and live
records alike. -/
theorem softdeleted_hidden_but_path_reserved (ledger : Ledger) (r : Record)
    (hmem : r ∈ ledger) (hdel : r.is_deleted = true) :
    (∀ (userId : Nat) (project_name file_type : Option String) (page page_size : Nat),
      r ∉ userFileList_page ledger userId project_name file_type page page_size) ∧
    (∀ r2 : Record, r2.file_path = r.file_path →
      ledgerCreate ledger r2 =
        .error "UNIQUE constraint failed: user_file_record.file_path") := by
  constructor
  · intro userId project_name file_type page page_size hpage
    unfold userFileList_page at hpage
    have hq : r ∈ userFileList_queryset ledger userId project_name file_type :=
      List.mem_of_mem_drop (List.mem_of_mem_take hpage)
    have hbase : r ∈ objectsFilter ledger (fun x => x.userId == userId) := by
      unfold userFileList_queryset at hq
      rcases project_name with _ | p <;> rcases file_type with _ | t <;>
        simp only at hq <;>
        first
        | exact mem_orderByUploadedDesc.mp hq
        | exact List.mem_of_mem_filter (mem_orderByUploadedDesc.mp hq)
        | exact List.mem_of_mem_filter (List.mem_of_mem_filter
            (mem_orderByUploadedDesc.mp hq))
    have hlive := List.of_mem_filter (List.mem_of_mem_filter hbase :
      r ∈ ledger.filter (fun x => !x.is_deleted))
    rw [hdel] at hlive
    exact absurd hlive (by decide)
  · intro r2 hpath
    unfold ledgerCreate
    have hany : ledger.any (fun x => x.file_path == r2.file_path) = true :=
      List.any_eq_true.mpr ⟨r, hmem, by simp [hpath]⟩
    rw [hany]
    rfl

/-- Witness for C7: the soft-deleted row of `ledgerW` is invisible to its
owner's first list page, and re-inserting its path is refused. -/
theorem softdeleted_hidden_but_path_reserved_witness :
    (recBobDeleted ∉ userFileList_page ledgerW 11 none none 1 20) ∧
    ledgerCreate ledgerW
        ⟨3, 11, "ai_memo/documents/b.pdf", "ai_memo", "documents", 400, false, none⟩ =
      .error "UNIQUE constraint failed: user_file_record.file_path" := by
  have h := softdeleted_hidden_but_path_reserved ledgerW recBobDeleted
    (by decide) (by decide)
  exact ⟨h.1 11 none none 1 20,
    h.2 ⟨3, 11, "ai_memo/documents/b.pdf", "ai_memo", "documents", 400, false, none⟩ rfl⟩

/-- C8: when a file's name carries no extension, the extension check is
skipped entirely: the file passes `validate_file` whenever its size and MIME
checks pass — for any extension allow-list whatsoever, so the list is only
consulted when a (lower-cased) extension is present. -/
theorem no_extension_skips_extension_check (cfg : UploadConfig) (f : FileObj)
    (hsize : f.size ≤ cfg.MAX_FILE_SIZE)
    (hmime : ((cfg.ALLOWED_TYPES.map Prod.snd).flatten).contains f.content_type = true)
    (hext : splitextExt f.name = "") :
    validate_file cfg f = (true, none) := by
  have h0 : pyLower (splitextExt f.name) = "" := by rw [hext]; rfl
  simp [validate_file, hmime, h0, Nat.not_lt.mpr hsize]
  simpa using hmime

/-- Witness for C8: `"noext"` has no extension and sails through under
`cfgW`, whose extension allow-list does not matter to it. -/
theorem no_extension_skips_extension_check_witness :
    validate_file cfgW fileNoExt = (true, none) :=
  no_extension_skips_extension_check cfgW fileNoExt
    (by decide) (by decide) (by decide)

/-- C2 counterexample: in the §8 scenario request, when the ledger insert
raises the `file_path` uniqueness violation after a successful store write,
the view attempts exactly one store write and exactly one insert — no retry
with a freshly generated key — and surfaces the failure directly as a 500
error. -/
theorem unique_collision_not_retried :
    ((fileUpload_post cfgW reqSingleW (.ok urW)
        (.error "UNIQUE constraint failed: user_file_record.file_path")).2.count
      Effect.storePut = 1) ∧
    ((fileUpload_post cfgW reqSingleW (.ok urW)
        (.error "UNIQUE constraint failed: user_file_record.file_path")).2.count
      Effect.ledgerInsert = 1) ∧
    (fileUpload_post cfgW reqSingleW (.ok urW)
        (.error "UNIQUE constraint failed: user_file_record.file_path")).1.code
      = 500 := by
  decide

/-- C2 (amended): when the ledger insert of a validated single upload fails —
the `file_path` uniqueness collision included — the failure is surfaced
directly as a 500 error whose message wraps the database error; the trace
holds exactly one store write and one insert attempt, so the operation is
not retried with a fresh key and no second store write occurs. -/
theorem ledger_insert_failure_surfaced (cfg : UploadConfig) (req : UploadReq)
    (f : FileObj) (ur : UploadResult) (e : String)
    (hreq : req.fileList = [f]) (hproj : req.project_name ≠ "")
    (htype : req.file_type ≠ "") (hvalid : (validate_file cfg f).1 = true) :
    fileUpload_post cfg req (.ok ur) (.error e) =
      (APIResponse.error ("上传失败: " ++ e) 500 500,
       [Effect.storePut, Effect.ledgerInsert]) := by
  unfold fileUpload_post
  rw [hreq]
  simp only [List.getLast?_singleton, List.length_singleton]
  rcases hv : validate_file cfg f with ⟨valid, msg⟩
  rw [hv] at hvalid
  simp only at hvalid
  subst hvalid
  simp [hproj, htype, hv, APIResponse.error]

/-- Witness for the amended C2: the concrete collision run of the
counterexample, reproduced through the general theorem. -/
theorem ledger_insert_failure_surfaced_witness :
    fileUpload_post cfgW reqSingleW (.ok urW)
        (.error "UNIQUE constraint failed: user_file_record.file_path") =
      (APIResponse.error
        ("上传失败: " ++ "UNIQUE constraint failed: user_file_record.file_path") 500 500,
       [Effect.storePut, Effect.ledgerInsert]) :=
  ledger_insert_failure_surfaced cfgW reqSingleW fileOk urW
    "UNIQUE constraint failed: user_file_record.file_path"
    rfl (by decide) (by decide) (by decide)

/-- C5 counterexample: for the 10 MiB file against the 5 MiB limit the
rejection message reads `"... 大小 10.00MB 超过限制 5.0MB"` — the actual size
is rendered with two decimals but the limit is not (`"5.0"`, not `"5.00"`),
so the message does not cite both values rounded to 2 decimal places. -/
theorem size_message_limit_not_2dp :
    (validate_file cfgW fileBig).2 =
      some "文件 big.png 大小 10.00MB 超过限制 5.0MB" ∧
    (validate_file cfgW fileBig).2 ≠
      some ("文件 big.png 大小 " ++ formatFix2 10485760 (1024 * 1024) ++
        "MB 超过限制 " ++ formatFix2 5242880 (1024 * 1024) ++ "MB") := by
  constructor
  · decide
  · decide

/-- C5 (amended): for every file with size strictly above the configured
maximum, `validate_file` rejects with a message citing the actual size in MB
rounded to 2 decimal places, but the limit in MB in Python's default float
formatting — unrounded, with an integral limit printing as e.g. `5.0`. -/
theorem size_exceeded_message_cites_sizes (cfg : UploadConfig) (f : FileObj)
    (h : cfg.MAX_FILE_SIZE < f.size) :
    validate_file cfg f =
      (false, some ("文件 " ++ f.name ++ " 大小 " ++ formatFix2 f.size (1024 * 1024) ++
        "MB 超过限制 " ++ pyFloatStr cfg.MAX_FILE_SIZE (1024 * 1024) ++ "MB")) := by
  unfold validate_file
  rw [if_pos h]

/-- Witness for the amended C5: the 10 MiB file against the 5 MiB limit. -/
theorem size_exceeded_message_cites_sizes_witness :
    validate_file cfgW fileBig =
      (false, some ("文件 " ++ fileBig.name ++ " 大小 " ++
        formatFix2 fileBig.size (1024 * 1024) ++
        "MB 超过限制 " ++ pyFloatStr cfgW.MAX_FILE_SIZE (1024 * 1024) ++ "MB")) :=
  size_exceeded_message_cites_sizes cfgW fileBig (by decide)

end AnimeNative
